import Mathlib

/-!
Verification of the uniswap-v3-dataset subgraph against its specification.

The development shallowly embeds the relevant parts of the repository:

* the generated protobuf wire codec and message model contained in
  `src/proto/uniswap.proto` (namespace `__proto`, classes `Decoder`,
  `Encoder`, `Sizer`, and message classes `Event`, `Any`, `PoolCreated`);
* the swap tick-crossing sweep of `handleSwap` (`src/proto/uniswap.proto`,
  core mappings section);
* the aggregation handlers (`handlePoolCreated`, `handleMint`, `handleBurn`,
  `handleSwap`, `handleInitialize`, `handleFlash`, and the position-manager
  handlers) together with the event dispatcher of `src/src/mappings/fast.ts`.

Machine integers are modelled as `Nat`/`Int` with explicit `% 2^w` wrapping,
byte buffers as `List Nat` (each element a byte value), AssemblyScript
strings as lists of Unicode scalar values, graph-ts `BigInt` as `Int` and
`BigDecimal` as `Rat`.
-/

namespace UniswapSg

/-! ## Wire codec (`__proto.Decoder` / `__proto.Encoder` / `__proto.Sizer`)

`Encoder.varint64` pushes 7-bit groups, low first, with the continuation bit
set, while the value exceeds 127.  The loop performs at most ten iterations on
a `u64`, so it is modelled with a fuel of 10 after wrapping the argument to 64
bits. -/

def varintEncodeAux : Nat → Nat → List Nat
  | 0, v => [v]
  | fuel + 1, v => if 127 < v then (v % 128 + 128) :: varintEncodeAux fuel (v / 128) else [v]

def varintEncode (v : Nat) : List Nat :=
  varintEncodeAux 10 (v % 2 ^ 64)

/-- The shift amounts used by `Decoder.varint`, in byte order.  The generated
decoder reads up to ten bytes; the shifts of the ninth and tenth byte repeat
`28` and `35` (the source lines read `value | ((u64(...) & 127) << 28)` and
`<< 35` again after the `<< 49` step) instead of continuing with `56` and
`63`. -/
def decoderShifts : List Nat := [0, 7, 14, 21, 28, 35, 42, 49, 28, 35]

/-- One step per byte of `Decoder.varint`: OR `(byte & 127) << shift` into the
accumulator and stop as soon as a byte below 128 is consumed.  Running out of
bytes mid-varint is the decoder's out-of-range trap (`none`); running out of
shifts (ten bytes consumed) returns the accumulator as the source does. -/
def parseVarintAux : List Nat → List Nat → Nat → Option (Nat × List Nat)
  | [], rest, value => some (value, rest)
  | _ :: _, [], _ => none
  | shift :: shifts, b :: rest, value =>
    let value := value ||| (((b % 256) &&& 127) <<< shift)
    if b % 256 < 128 then some (value, rest) else parseVarintAux shifts rest value

def parseVarint (bytes : List Nat) : Option (Nat × List Nat) :=
  parseVarintAux decoderShifts bytes 0

/-! Two's-complement reinterpretation helpers for the fixed-width integer
types of the codec. -/

def toU64 (n : Int) : Nat := (n % (2 ^ 64 : Int)).toNat

def toU32 (n : Int) : Nat := (n % (2 ^ 32 : Int)).toNat

def toI64 (u : Nat) : Int :=
  if u % 2 ^ 64 < 2 ^ 63 then ((u % 2 ^ 64 : Nat) : Int) else ((u % 2 ^ 64 : Nat) : Int) - 2 ^ 64

def toI32 (u : Nat) : Int :=
  if u % 2 ^ 32 < 2 ^ 31 then ((u % 2 ^ 32 : Nat) : Int) else ((u % 2 ^ 32 : Nat) : Int) - 2 ^ 32

/-- `Decoder.int32`: truncate the decoded varint to `i32`. -/
def decodeInt32 (u : Nat) : Int := toI32 u

/-- `Decoder.sint64`: `i64((n >>> 1) ^ -(n & 1))` computed on the `u64` bits
(`-(n & 1)` is all-ones when `n` is odd). -/
def decodeSint64 (u : Nat) : Int :=
  toI64 ((u >>> 1) ^^^ (if u % 2 = 1 then 2 ^ 64 - 1 else 0))

/-- `Decoder.sint32`: same computation truncated to `i32`. -/
def decodeSint32 (u : Nat) : Int :=
  toI32 ((u >>> 1) ^^^ (if u % 2 = 1 then 2 ^ 64 - 1 else 0))

/-- `Encoder.int32` / `Encoder.int64`: the argument is widened to `u64` with
sign extension (AssemblyScript widens following the signedness of the source
type) and varint-encoded. -/
def encodeInt32 (n : Int) : List Nat := varintEncode (toU64 n)

/-- The `u64` bit pattern of `(value << 1) ^ (value >> 63)` for an `i64`
value: `value << 1` wraps to `2n mod 2^64` and the arithmetic shift
`value >> 63` is all-ones exactly for negative values. -/
def zigzag64 (n : Int) : Nat :=
  toU64 (2 * n) ^^^ (if n < 0 then 2 ^ 64 - 1 else 0)

def encodeSint64 (n : Int) : List Nat := varintEncode (zigzag64 n)

/-- The `u32` bit pattern of `(value << 1) ^ (value >> 31)` for an `i32`
value. -/
def zigzag32 (n : Int) : Nat :=
  toU32 (2 * n) ^^^ (if n < 0 then 2 ^ 32 - 1 else 0)

/-- `Encoder.sint32`: the `i32` zigzag result is passed to `varint64`, which
sign-extends it to `u64`. -/
def encodeSint32 (n : Int) : List Nat := varintEncode (toU64 (toI32 (zigzag32 n)))

def parseSint32 (bytes : List Nat) : Option Int :=
  (parseVarint bytes).map fun p => decodeSint32 p.1

def parseSint64 (bytes : List Nat) : Option Int :=
  (parseVarint bytes).map fun p => decodeSint64 p.1

/-- `Sizer.varint64`: byte length of the varint encoding, by threshold
comparison as in the source. -/
def sizerVarint64 (v : Nat) : Nat :=
  if v < 128 then 1
  else if v < 16384 then 2
  else if v < 2097152 then 3
  else if v < 268435456 then 4
  else if v < 34359738368 then 5
  else if v < 4398046511104 then 6
  else if v < 562949953421312 then 7
  else if v < 72057594037927936 then 8
  else if v < 9223372036854775808 then 9
  else 10

/-! ## Strings

AssemblyScript strings are UTF-16; `string.length` counts UTF-16 code units
while `Encoder.string` emits the UTF-8 bytes (`String.UTF8.encode`).  Strings
are modelled as lists of Unicode scalar values. -/

def utf16LenChar (c : Nat) : Nat := if c < 0x10000 then 1 else 2

def utf16Len : List Nat → Nat
  | [] => 0
  | c :: cs => utf16LenChar c + utf16Len cs

def utf8EncChar (c : Nat) : List Nat :=
  if c < 0x80 then [c]
  else if c < 0x800 then [0xC0 ||| (c >>> 6), 0x80 ||| (c &&& 0x3F)]
  else if c < 0x10000 then
    [0xE0 ||| (c >>> 12), 0x80 ||| ((c >>> 6) &&& 0x3F), 0x80 ||| (c &&& 0x3F)]
  else
    [0xF0 ||| (c >>> 18), 0x80 ||| ((c >>> 12) &&& 0x3F),
      0x80 ||| ((c >>> 6) &&& 0x3F), 0x80 ||| (c &&& 0x3F)]

def utf8Enc : List Nat → List Nat
  | [] => []
  | c :: cs => utf8EncChar c ++ utf8Enc cs

/-- UTF-8 decoding (`String.UTF8.decode`), exact on valid encodings; a
malformed prefix yields the replacement character, matching the lenient host
decoder closely enough for the development (no theorem depends on malformed
input). -/
def utf8DecAux : Nat → List Nat → List Nat
  | 0, _ => []
  | _, [] => []
  | fuel + 1, b :: rest =>
    if b < 0x80 then b :: utf8DecAux fuel rest
    else if 0xC0 ≤ b ∧ b < 0xE0 then
      match rest with
      | b1 :: rest1 => (((b &&& 0x1F) <<< 6) ||| (b1 &&& 0x3F)) :: utf8DecAux fuel rest1
      | [] => [0xFFFD]
    else if 0xE0 ≤ b ∧ b < 0xF0 then
      match rest with
      | b1 :: b2 :: rest2 =>
        (((b &&& 0x0F) <<< 12) ||| ((b1 &&& 0x3F) <<< 6) ||| (b2 &&& 0x3F)) :: utf8DecAux fuel rest2
      | _ => [0xFFFD]
    else if 0xF0 ≤ b ∧ b < 0xF8 then
      match rest with
      | b1 :: b2 :: b3 :: rest3 =>
        (((b &&& 0x07) <<< 18) ||| ((b1 &&& 0x3F) <<< 12) ||| ((b2 &&& 0x3F) <<< 6) ||| (b3 &&& 0x3F))
          :: utf8DecAux fuel rest3
      | _ => [0xFFFD]
    else 0xFFFD :: utf8DecAux fuel rest

def utf8Dec (bytes : List Nat) : List Nat := utf8DecAux bytes.length bytes

/-- `Decoder.string`: read a `uint32` length prefix, fail when it exceeds the
remaining buffer, then UTF-8-decode exactly that many bytes. -/
def parseString (bytes : List Nat) : Option (List Nat × List Nat) :=
  (parseVarint bytes).bind fun p =>
    let len := p.1 % 2 ^ 32
    if p.2.length < len then none
    else some (utf8Dec (p.2.take len), p.2.drop len)

/-- `Decoder.bytes`: read a `uint32` length prefix then that many raw bytes. -/
def parseBytes (bytes : List Nat) : Option (List Nat × List Nat) :=
  (parseVarint bytes).bind fun p =>
    let len := p.1 % 2 ^ 32
    if p.2.length < len then none
    else some (p.2.take len, p.2.drop len)

/-- `Decoder.skipType`: discard one value of the given wire type.  Wire type 3
(start group) loops, skipping inner fields until an end-group tag; the loop is
modelled with fuel bounded by the buffer length (each inner skip consumes at
least one byte). -/
def skipData : Nat → Nat → List Nat → Option (List Nat)
  | _, 0, bytes => (parseVarint bytes).map Prod.snd
  | _, 1, bytes => if 8 ≤ bytes.length then some (bytes.drop 8) else none
  | _, 2, bytes =>
    (parseVarint bytes).bind fun p =>
      let len := p.1 % 2 ^ 32
      if p.2.length < len then none else some (p.2.drop len)
  | fuel + 1, 3, bytes =>
    (parseVarint bytes).bind fun p =>
      let wt := (p.1 % 2 ^ 32) &&& 7
      if wt = 4 then some p.2
      else (skipData fuel wt p.2).bind fun rest => skipData fuel 3 rest
  | 0, 3, _ => none
  | _, 5, bytes => if 4 ≤ bytes.length then some (bytes.drop 4) else none
  | _, _, _ => none

/-! ## Message model

`google.protobuf.Any`, `Event` and `PoolCreated` with their generated
`size` / `encodeU8Array` / `decodeDataView` methods.  Every decode loop
consumes at least one byte per iteration, so the loops are modelled with fuel
equal to the buffer length. -/

structure AnyMsg where
  typeUrl : List Nat
  value : List Nat
deriving DecidableEq

def anyMsgDefault : AnyMsg := ⟨[], []⟩

def anySize (m : AnyMsg) : Nat :=
  (if 0 < utf16Len m.typeUrl then
    1 + sizerVarint64 (utf16Len m.typeUrl) + utf16Len m.typeUrl else 0) +
  (if 0 < m.value.length then
    1 + sizerVarint64 m.value.length + m.value.length else 0)

def anyEncode (m : AnyMsg) : List Nat :=
  (if 0 < utf16Len m.typeUrl then
    varintEncode 0xa ++ varintEncode (utf16Len m.typeUrl) ++ utf8Enc m.typeUrl else []) ++
  (if 0 < m.value.length then
    varintEncode 0x12 ++ varintEncode m.value.length ++ m.value else [])

def anyDecodeLoop : Nat → List Nat → AnyMsg → Option AnyMsg
  | _, [], obj => some obj
  | 0, _ :: _, _ => none
  | fuel + 1, bytes, obj =>
    (parseVarint bytes).bind fun t =>
      let tag := t.1 % 2 ^ 32
      match tag >>> 3 with
      | 1 => (parseString t.2).bind fun p => anyDecodeLoop fuel p.2 { obj with typeUrl := p.1 }
      | 2 => (parseBytes t.2).bind fun p => anyDecodeLoop fuel p.2 { obj with value := p.1 }
      | _ => (skipData t.2.length (tag &&& 7) t.2).bind fun r => anyDecodeLoop fuel r obj

def anyDecode (bytes : List Nat) : Option AnyMsg :=
  anyDecodeLoop bytes.length bytes anyMsgDefault

structure EventMsg where
  owner : List Nat
  type : Nat
  event : AnyMsg
  address : List Nat
  txHash : List Nat
  txGasUsed : List Nat
  txGasPrice : List Nat
  blockNumber : Int
  blockTimestamp : List Nat
deriving DecidableEq

def eventMsgDefault : EventMsg := ⟨[], 0, anyMsgDefault, [], [], [], [], 0, []⟩

/-- `Event.encodeU8Array`: each field is emitted only when it differs from its
default; length prefixes of strings use the UTF-16 code-unit count
(`this.owner.length`) while the payload is the UTF-8 encoding, as in the
source. -/
def eventEncode (m : EventMsg) : List Nat :=
  (if 0 < utf16Len m.owner then
    varintEncode 0xa ++ varintEncode (utf16Len m.owner) ++ utf8Enc m.owner else []) ++
  (if m.type ≠ 0 then varintEncode 0x10 ++ varintEncode (m.type % 2 ^ 32) else []) ++
  (if 0 < anySize m.event then
    varintEncode 0x1a ++ varintEncode (anySize m.event) ++ anyEncode m.event else []) ++
  (if 0 < utf16Len m.address then
    varintEncode 0x22 ++ varintEncode (utf16Len m.address) ++ utf8Enc m.address else []) ++
  (if 0 < m.txHash.length then
    varintEncode 0x2a ++ varintEncode m.txHash.length ++ m.txHash else []) ++
  (if 0 < utf16Len m.txGasUsed then
    varintEncode 0x32 ++ varintEncode (utf16Len m.txGasUsed) ++ utf8Enc m.txGasUsed else []) ++
  (if 0 < m.txGasPrice.length then
    varintEncode 0x3a ++ varintEncode m.txGasPrice.length ++ m.txGasPrice else []) ++
  (if m.blockNumber ≠ 0 then varintEncode 0x40 ++ varintEncode (toU64 m.blockNumber) else []) ++
  (if 0 < utf16Len m.blockTimestamp then
    varintEncode 0x4a ++ varintEncode (utf16Len m.blockTimestamp) ++ utf8Enc m.blockTimestamp
  else [])

def eventDecodeLoop : Nat → List Nat → EventMsg → Option EventMsg
  | _, [], obj => some obj
  | 0, _ :: _, _ => none
  | fuel + 1, bytes, obj =>
    (parseVarint bytes).bind fun t =>
      let tag := t.1 % 2 ^ 32
      match tag >>> 3 with
      | 1 => (parseString t.2).bind fun p => eventDecodeLoop fuel p.2 { obj with owner := p.1 }
      | 2 => (parseVarint t.2).bind fun p =>
          eventDecodeLoop fuel p.2 { obj with type := p.1 % 2 ^ 32 }
      | 3 => (parseVarint t.2).bind fun p =>
          let len := p.1 % 2 ^ 32
          if p.2.length < len then none
          else (anyDecode (p.2.take len)).bind fun a =>
            eventDecodeLoop fuel (p.2.drop len) { obj with event := a }
      | 4 => (parseString t.2).bind fun p => eventDecodeLoop fuel p.2 { obj with address := p.1 }
      | 5 => (parseBytes t.2).bind fun p => eventDecodeLoop fuel p.2 { obj with txHash := p.1 }
      | 6 => (parseString t.2).bind fun p => eventDecodeLoop fuel p.2 { obj with txGasUsed := p.1 }
      | 7 => (parseBytes t.2).bind fun p => eventDecodeLoop fuel p.2 { obj with txGasPrice := p.1 }
      | 8 => (parseVarint t.2).bind fun p =>
          eventDecodeLoop fuel p.2 { obj with blockNumber := decodeInt32 p.1 }
      | 9 => (parseString t.2).bind fun p =>
          eventDecodeLoop fuel p.2 { obj with blockTimestamp := p.1 }
      | _ => (skipData t.2.length (tag &&& 7) t.2).bind fun r => eventDecodeLoop fuel r obj

def eventDecode (bytes : List Nat) : Option EventMsg :=
  eventDecodeLoop bytes.length bytes eventMsgDefault

structure PoolCreatedMsg where
  token0 : List Nat
  token1 : List Nat
  fee : List Nat
  tickSpacing : List Nat
  pool : List Nat
deriving DecidableEq

/-- `PoolCreated.size`: per string field, `1 + Sizer.varint64(f.length) +
f.length` when non-empty — `f.length` being the UTF-16 code-unit count. -/
def poolCreatedSize (m : PoolCreatedMsg) : Nat :=
  (if 0 < utf16Len m.token0 then
    1 + sizerVarint64 (utf16Len m.token0) + utf16Len m.token0 else 0) +
  (if 0 < utf16Len m.token1 then
    1 + sizerVarint64 (utf16Len m.token1) + utf16Len m.token1 else 0) +
  (if 0 < utf16Len m.fee then
    1 + sizerVarint64 (utf16Len m.fee) + utf16Len m.fee else 0) +
  (if 0 < utf16Len m.tickSpacing then
    1 + sizerVarint64 (utf16Len m.tickSpacing) + utf16Len m.tickSpacing else 0) +
  (if 0 < utf16Len m.pool then
    1 + sizerVarint64 (utf16Len m.pool) + utf16Len m.pool else 0)

def poolCreatedEncode (m : PoolCreatedMsg) : List Nat :=
  (if 0 < utf16Len m.token0 then
    varintEncode 0xa ++ varintEncode (utf16Len m.token0) ++ utf8Enc m.token0 else []) ++
  (if 0 < utf16Len m.token1 then
    varintEncode 0x12 ++ varintEncode (utf16Len m.token1) ++ utf8Enc m.token1 else []) ++
  (if 0 < utf16Len m.fee then
    varintEncode 0x1a ++ varintEncode (utf16Len m.fee) ++ utf8Enc m.fee else []) ++
  (if 0 < utf16Len m.tickSpacing then
    varintEncode 0x22 ++ varintEncode (utf16Len m.tickSpacing) ++ utf8Enc m.tickSpacing else []) ++
  (if 0 < utf16Len m.pool then
    varintEncode 0x2a ++ varintEncode (utf16Len m.pool) ++ utf8Enc m.pool else [])

/-! ## Tick-crossing sweep (`handleSwap`, core mappings)

After a swap the handler refreshes the fee-growth variables of boundary
ticks: first `newTick` itself when `newTick mod tickSpacing == 0`, then —
unless `|oldTick − newTick| / tickSpacing` exceeds 100 — every tick from
`oldTick + (tickSpacing − modulo)` (upward) or `oldTick − modulo` (downward)
to `newTick` in steps of `tickSpacing`, where `modulo = newTick mod
tickSpacing`.  graph-ts `BigInt` division and modulus truncate toward zero
(`Int.tdiv` / `Int.tmod`).  The loops are modelled by well-founded recursion,
guarded by `0 < s` (the source's tick spacings are 10, 60 and 200). -/

def sweepUp (i newTick s : Int) : List Int :=
  if _h : 0 < s ∧ i ≤ newTick then i :: sweepUp (i + s) newTick s else []
termination_by (newTick + 1 - i).toNat
decreasing_by omega

def sweepDown (i newTick s : Int) : List Int :=
  if _h : 0 < s ∧ newTick ≤ i then i :: sweepDown (i - s) newTick s else []
termination_by (i + 1 - newTick).toNat
decreasing_by omega

/-- The ordered list of tick indices passed to `loadTickUpdateFeeVarsAndSave`
by the sweep at the end of `handleSwap`. -/
def sweepRefreshIds (oldTick newTick tickSpacing : Int) : List Int :=
  let modulo := newTick.tmod tickSpacing
  let numIters : Int := ((oldTick - newTick).natAbs : Int).tdiv tickSpacing
  (if modulo = 0 then [newTick] else []) ++
    (if 100 < numIters then []
     else if oldTick < newTick then sweepUp (oldTick + (tickSpacing - modulo)) newTick tickSpacing
     else if newTick < oldTick then sweepDown (oldTick - modulo) newTick tickSpacing
     else [])

/-! ## Entities and store

graph-ts entities, restricted to the fields read or written by the modelled
handlers.  Omitted throughout (never examined by any claim): the immutable
per-event records (`Mint`, `Burn`, `Swap`, `Transaction`, `PositionSnapshot`),
the time-bucketed day/hour snapshot entities, `Token.symbol/name/totalSupply`,
and `Pool.liquidityProviderCount/observationIndex`.  `Factory` (keyed by the
constant factory address) and `Bundle` (keyed by `'1'`) are single slots.
`BigInt` is `Int`, `BigDecimal` is `Rat`, addresses and ids are `String`. -/

structure PoolEnt where
  token0 : String
  token1 : String
  feeTier : Int
  createdAtTimestamp : Int
  createdAtBlockNumber : Int
  tick : Option Int
  liquidity : Int
  sqrtPrice : Int
  txCount : Int
  token0Price : Rat
  token1Price : Rat
  volumeToken0 : Rat
  volumeToken1 : Rat
  volumeUSD : Rat
  untrackedVolumeUSD : Rat
  feesUSD : Rat
  totalValueLockedToken0 : Rat
  totalValueLockedToken1 : Rat
  totalValueLockedETH : Rat
  totalValueLockedUSD : Rat
  totalValueLockedUSDUntracked : Rat
  collectedFeesToken0 : Rat
  collectedFeesToken1 : Rat
  collectedFeesUSD : Rat
  feeGrowthGlobal0X128 : Int
  feeGrowthGlobal1X128 : Int
deriving DecidableEq

structure TokenEnt where
  decimals : Int
  derivedETH : Rat
  volume : Rat
  volumeUSD : Rat
  untrackedVolumeUSD : Rat
  feesUSD : Rat
  totalValueLocked : Rat
  totalValueLockedUSD : Rat
  totalValueLockedUSDUntracked : Rat
  txCount : Int
  poolCount : Int
  whitelistPools : List String
deriving DecidableEq

structure FactoryEnt where
  poolCount : Int
  txCount : Int
  totalVolumeETH : Rat
  totalVolumeUSD : Rat
  untrackedVolumeUSD : Rat
  totalFeesETH : Rat
  totalFeesUSD : Rat
  totalValueLockedETH : Rat
  totalValueLockedUSD : Rat
  totalValueLockedUSDUntracked : Rat
  totalValueLockedETHUntracked : Rat
  owner : String
deriving DecidableEq

structure BundleEnt where
  ethPriceUSD : Rat
deriving DecidableEq

structure TickEnt where
  tickIdx : Int
  liquidityGross : Int
  liquidityNet : Int
  feeGrowthOutside0X128 : Int
  feeGrowthOutside1X128 : Int
deriving DecidableEq

structure PositionEnt where
  owner : String
  pool : String
  token0 : String
  token1 : String
  tickLower : String
  tickUpper : String
  liquidity : Int
  depositedToken0 : Rat
  depositedToken1 : Rat
  withdrawnToken0 : Rat
  withdrawnToken1 : Rat
  collectedFeesToken0 : Rat
  collectedFeesToken1 : Rat
  feeGrowthInside0LastX128 : Int
  feeGrowthInside1LastX128 : Int
deriving DecidableEq

/-- The entity store: `load` is function application, `save` is pointwise
update at the entity's id. -/
structure State where
  pools : String → Option PoolEnt
  tokens : String → Option TokenEnt
  ticks : String → Option TickEnt
  positions : String → Option PositionEnt
  factory : Option FactoryEnt
  bundle : Option BundleEnt

def State.setPool (s : State) (k : String) (p : PoolEnt) : State :=
  { s with pools := fun q => if q = k then some p else s.pools q }

def State.setToken (s : State) (k : String) (t : TokenEnt) : State :=
  { s with tokens := fun q => if q = k then some t else s.tokens q }

def State.setTick (s : State) (k : String) (t : TickEnt) : State :=
  { s with ticks := fun q => if q = k then some t else s.ticks q }

def State.setPosition (s : State) (k : String) (p : PositionEnt) : State :=
  { s with positions := fun q => if q = k then some p else s.positions q }

/-- Per-event transaction context built by the dispatcher (`TxDetails` in
`fast.ts`); the gas fields only feed the omitted `Transaction` entity. -/
structure TxDetails where
  address : String
  blockNumber : Int
  blockTimestamp : Int

/-- Result tuple of `NonfungiblePositionManager.positions(tokenId)` (the
components the handlers read: `value2/3/4/5/6/8/9`). -/
structure PositionsResult where
  token0 : String
  token1 : String
  fee : Int
  tickLower : Int
  tickUpper : Int
  feeGrowthInside0 : Int
  feeGrowthInside1 : Int

/-- External collaborators of the handlers: on-chain read calls and the
pricing/util functions of `src/utils/*`, which are not part of the provided
sources and are therefore injected as oracle parameters (the spec, §6/§9,
specifies them only at interface level).  `positionsCall` returns `none` when
the contract call reverts. -/
structure Env where
  ethPriceUSD : Rat
  findEthPerToken : String → Rat
  trackedAmountUSD : Rat → String → Rat → String → Rat
  sqrtPriceToPrices : Int → String → String → Rat × Rat
  feeGrowthGlobal0 : String → Int
  feeGrowthGlobal1 : String → Int
  tickFeeGrowth : String → Int → Int × Int
  feeTierToTickSpacing : Int → Int
  positionsCall : Int → Option PositionsResult
  getPool : String → String → Int → String
  fetchDecimals : String → Option Int
  whitelistTokens : List String

def addressZero : String := "0x0000000000000000000000000000000000000000"

/-- The hard-coded pool address excluded by the `temp fix` checks of
`handlePoolCreated` and the position-manager handlers. -/
def excludedPoolAddress : String := "0x8fe8d9bb8eeba3ed688069c3d6b556c9ca258248"

/-- The hard-coded pool address excluded by the `hot fix for bad pricing`
check of `handleSwap`. -/
def swapHotFixPoolAddress : String := "0x9663f2ca0454accad3e094448ea6f77443880454"

/-- Modelled from the spec: `convertTokenToDecimal` lives in `src/utils`
(not among the provided sources); §3 specifies the conversion as
`raw / 10^decimals`. -/
def convertTokenToDecimal (amount : Int) (decimals : Int) : Rat :=
  (amount : Rat) / (10 : Rat) ^ decimals.toNat

/-- Modelled from the spec: `safeDiv` lives in `src/utils`; §7(e) specifies
that division by zero yields the sentinel zero. -/
def safeDiv (a b : Rat) : Rat := if b = 0 then 0 else a / b

/-- Modelled from the spec: `createTick` lives in `src/utils/tick`; §3
specifies that a `Tick` is created lazily on first mint with zeroed
liquidity ledger fields. -/
def createTick (idx : Int) : TickEnt :=
  { tickIdx := idx, liquidityGross := 0, liquidityNet := 0,
    feeGrowthOutside0X128 := 0, feeGrowthOutside1X128 := 0 }

/-- Tick entity id: `poolAddress + '#' + tickIdx.toString()`. -/
def tickKey (pool : String) (idx : Int) : String := pool ++ "#" ++ toString idx

/-- `updateTickFeeVarsAndSave`: refresh the tick's fee-growth-outside values
from the pool contract (`poolContract.ticks(tick.tickIdx)`) and save it
(`updateTickDayData` omitted). -/
def updateTickFeeVars (env : Env) (td : TxDetails) (key : String) (t : TickEnt)
    (s : State) : State :=
  let r := env.tickFeeGrowth td.address t.tickIdx
  s.setTick key { t with feeGrowthOutside0X128 := r.1, feeGrowthOutside1X128 := r.2 }

/-- `loadTickUpdateFeeVarsAndSave`: refresh only when the tick exists. -/
def loadTickUpdateFeeVars (env : Env) (td : TxDetails) (tickId : Int) (s : State) : State :=
  match s.ticks (tickKey td.address tickId) with
  | some t => updateTickFeeVars env td (tickKey td.address tickId) t s
  | none => s

/-! ## Event payloads

The payload messages with their fields already parsed: the handlers parse
every numeric text field (`BigInt.fromString` / `I32.parseInt`) immediately
on receipt, so the model carries the parsed `Int` values. -/

structure PoolCreatedEv where
  token0 : String
  token1 : String
  fee : Int
  tickSpacing : Int
  pool : String

structure IncreaseLiquidityEv where
  tokenId : Int
  liquidity : Int
  amount0 : Int
  amount1 : Int

structure DecreaseLiquidityEv where
  tokenId : Int
  liquidity : Int
  amount0 : Int
  amount1 : Int

structure CollectEv where
  tokenId : Int
  recipient : String
  amount0 : Int
  amount1 : Int

structure TransferEv where
  fromAddr : String
  toAddr : String
  tokenId : Int

structure InitEv where
  sqrtPriceX96 : Int
  tick : Int

structure SwapEv where
  sender : String
  recipient : String
  amount0 : Int
  amount1 : Int
  sqrtPriceX96 : Int
  liquidity : Int
  tick : Int
  logIndex : Int
  transactionFrom : String

structure MintEv where
  sender : String
  owner : String
  tickLower : Int
  tickUpper : Int
  amount : Int
  amount0 : Int
  amount1 : Int
  logIndex : Int
  transactionFrom : String

structure BurnEv where
  owner : String
  tickLower : Int
  tickUpper : Int
  amount : Int
  amount0 : Int
  amount1 : Int
  logIndex : Int
  transactionFrom : String

/-! ## Handlers

Each handler maps `State` to `Option State`: `some s` with `s` unchanged
models a silent early return, `none` models an aborting trap (a failed `!`
non-null assertion).  Entity mutations become visible only at the `save()`
points, mirrored by `set*` applications in source order. -/

/-- `handleInitialize` (core mappings). -/
def handleInit (env : Env) (td : TxDetails) (e : InitEv) (s : State) : Option State :=
  match s.pools td.address with
  | none => some s
  | some pool =>
    let pool := { pool with sqrtPrice := e.sqrtPriceX96, tick := some e.tick }
    let s := s.setPool td.address pool
    match s.tokens pool.token0, s.tokens pool.token1 with
    | some token0, some token1 =>
      match s.bundle with
      | none => none
      | some bundle =>
        let bundle := { bundle with ethPriceUSD := env.ethPriceUSD }
        let s := { s with bundle := some bundle }
        let token0 := { token0 with derivedETH := env.findEthPerToken pool.token0 }
        let token1 := { token1 with derivedETH := env.findEthPerToken pool.token1 }
        some ((s.setToken pool.token0 token0).setToken pool.token1 token1)
    | _, _ => none

set_option maxHeartbeats 1000000 in
/-- `handleMint` (core mappings).  The `amountUSD` value and the `Transaction`
and `Mint` records it feeds are omitted; `lowerTickIdx`/`upperTickIdx`
(`I32.parseInt`) parse the same strings as `tickLower`/`tickUpper`. -/
def handleMint (env : Env) (td : TxDetails) (e : MintEv) (s : State) : Option State :=
  let poolAddress := td.address
  match s.pools poolAddress with
  | none => some s
  | some pool =>
  match s.bundle with
  | none => none
  | some bundle =>
  match s.factory with
  | none => none
  | some factory =>
  match s.tokens pool.token0, s.tokens pool.token1 with
  | some token0, some token1 =>
    let amount0 := convertTokenToDecimal e.amount0 token0.decimals
    let amount1 := convertTokenToDecimal e.amount1 token1.decimals
    let factory := { factory with
      totalValueLockedETH := factory.totalValueLockedETH - pool.totalValueLockedETH }
    let factory := { factory with txCount := factory.txCount + 1 }
    let token0 := { token0 with
      txCount := token0.txCount + 1,
      totalValueLocked := token0.totalValueLocked + amount0 }
    let token0 := { token0 with
      totalValueLockedUSD := token0.totalValueLocked * (token0.derivedETH * bundle.ethPriceUSD) }
    let token1 := { token1 with
      txCount := token1.txCount + 1,
      totalValueLocked := token1.totalValueLocked + amount1 }
    let token1 := { token1 with
      totalValueLockedUSD := token1.totalValueLocked * (token1.derivedETH * bundle.ethPriceUSD) }
    let pool := { pool with txCount := pool.txCount + 1 }
    let pool :=
      match pool.tick with
      | some t =>
        if e.tickLower ≤ t ∧ t < e.tickUpper then
          { pool with liquidity := pool.liquidity + e.amount }
        else pool
      | none => pool
    let pool := { pool with
      totalValueLockedToken0 := pool.totalValueLockedToken0 + amount0,
      totalValueLockedToken1 := pool.totalValueLockedToken1 + amount1 }
    let pool := { pool with
      totalValueLockedETH := pool.totalValueLockedToken0 * token0.derivedETH
        + pool.totalValueLockedToken1 * token1.derivedETH }
    let pool := { pool with totalValueLockedUSD := pool.totalValueLockedETH * bundle.ethPriceUSD }
    let factory := { factory with
      totalValueLockedETH := factory.totalValueLockedETH + pool.totalValueLockedETH }
    let factory := { factory with
      totalValueLockedUSD := factory.totalValueLockedETH * bundle.ethPriceUSD }
    let lowerTickId := tickKey poolAddress e.tickLower
    let upperTickId := tickKey poolAddress e.tickUpper
    let lowerTick := (s.ticks lowerTickId).getD (createTick e.tickLower)
    let upperTick := (s.ticks upperTickId).getD (createTick e.tickUpper)
    let lowerTick := { lowerTick with
      liquidityGross := lowerTick.liquidityGross + e.amount,
      liquidityNet := lowerTick.liquidityNet + e.amount }
    let upperTick := { upperTick with
      liquidityGross := upperTick.liquidityGross + e.amount,
      liquidityNet := upperTick.liquidityNet - e.amount }
    let s := s.setToken pool.token0 token0
    let s := s.setToken pool.token1 token1
    let s := s.setPool poolAddress pool
    let s := { s with factory := some factory }
    let s := updateTickFeeVars env td lowerTickId lowerTick s
    let s := updateTickFeeVars env td upperTickId upperTick s
    some s
  | _, _ => none

set_option maxHeartbeats 1000000 in
/-- `handleBurn` (core mappings).  Unlike `handleMint` the boundary ticks are
loaded with `!` non-null assertions: a missing tick entity is a trap. -/
def handleBurn (env : Env) (td : TxDetails) (e : BurnEv) (s : State) : Option State :=
  let poolAddress := td.address
  match s.pools poolAddress with
  | none => some s
  | some pool =>
  match s.factory with
  | none => none
  | some factory =>
  match s.bundle with
  | none => none
  | some bundle =>
  match s.tokens pool.token0, s.tokens pool.token1 with
  | some token0, some token1 =>
    let amount0 := convertTokenToDecimal e.amount0 token0.decimals
    let amount1 := convertTokenToDecimal e.amount1 token1.decimals
    let factory := { factory with
      totalValueLockedETH := factory.totalValueLockedETH - pool.totalValueLockedETH }
    let factory := { factory with txCount := factory.txCount + 1 }
    let token0 := { token0 with
      txCount := token0.txCount + 1,
      totalValueLocked := token0.totalValueLocked - amount0 }
    let token0 := { token0 with
      totalValueLockedUSD := token0.totalValueLocked * (token0.derivedETH * bundle.ethPriceUSD) }
    let token1 := { token1 with
      txCount := token1.txCount + 1,
      totalValueLocked := token1.totalValueLocked - amount1 }
    let token1 := { token1 with
      totalValueLockedUSD := token1.totalValueLocked * (token1.derivedETH * bundle.ethPriceUSD) }
    let pool := { pool with txCount := pool.txCount + 1 }
    let pool :=
      match pool.tick with
      | some t =>
        if e.tickLower ≤ t ∧ t < e.tickUpper then
          { pool with liquidity := pool.liquidity - e.amount }
        else pool
      | none => pool
    let pool := { pool with
      totalValueLockedToken0 := pool.totalValueLockedToken0 - amount0,
      totalValueLockedToken1 := pool.totalValueLockedToken1 - amount1 }
    let pool := { pool with
      totalValueLockedETH := pool.totalValueLockedToken0 * token0.derivedETH
        + pool.totalValueLockedToken1 * token1.derivedETH }
    let pool := { pool with totalValueLockedUSD := pool.totalValueLockedETH * bundle.ethPriceUSD }
    let factory := { factory with
      totalValueLockedETH := factory.totalValueLockedETH + pool.totalValueLockedETH }
    let factory := { factory with
      totalValueLockedUSD := factory.totalValueLockedETH * bundle.ethPriceUSD }
    let lowerTickId := tickKey poolAddress e.tickLower
    let upperTickId := tickKey poolAddress e.tickUpper
    match s.ticks lowerTickId, s.ticks upperTickId with
    | some lowerTick, some upperTick =>
      let lowerTick := { lowerTick with
        liquidityGross := lowerTick.liquidityGross - e.amount,
        liquidityNet := lowerTick.liquidityNet - e.amount }
      let upperTick := { upperTick with
        liquidityGross := upperTick.liquidityGross - e.amount,
        liquidityNet := upperTick.liquidityNet + e.amount }
      let s := updateTickFeeVars env td lowerTickId lowerTick s
      let s := updateTickFeeVars env td upperTickId upperTick s
      let s := s.setToken pool.token0 token0
      let s := s.setToken pool.token1 token1
      let s := s.setPool poolAddress pool
      let s := { s with factory := some factory }
      some s
    | _, _ => none
  | _, _ => none

/-- The decimal amounts and volume/fee quantities computed at the top of
`handleSwap`. -/
structure SwapAmounts where
  amount0 : Rat
  amount1 : Rat
  amount0Abs : Rat
  amount1Abs : Rat
  tracked : Rat
  trackedETH : Rat
  untracked : Rat
  feesETH : Rat
  feesUSD : Rat

def swapAmounts (env : Env) (bundle : BundleEnt) (pool : PoolEnt)
    (token0 token1 : TokenEnt) (e : SwapEv) : SwapAmounts :=
  let amount0 := convertTokenToDecimal e.amount0 token0.decimals
  let amount1 := convertTokenToDecimal e.amount1 token1.decimals
  let amount0Abs := if amount0 < 0 then amount0 * (-1) else amount0
  let amount1Abs := if amount1 < 0 then amount1 * (-1) else amount1
  let amount0ETH := amount0Abs * token0.derivedETH
  let amount1ETH := amount1Abs * token1.derivedETH
  let amount0USD := amount0ETH * bundle.ethPriceUSD
  let amount1USD := amount1ETH * bundle.ethPriceUSD
  let tracked := env.trackedAmountUSD amount0Abs pool.token0 amount1Abs pool.token1 / 2
  let trackedETH := safeDiv tracked bundle.ethPriceUSD
  let untracked := (amount0USD + amount1USD) / 2
  let feesETH := trackedETH * (pool.feeTier : Rat) / 1000000
  let feesUSD := tracked * (pool.feeTier : Rat) / 1000000
  { amount0 := amount0, amount1 := amount1, amount0Abs := amount0Abs,
    amount1Abs := amount1Abs, tracked := tracked, trackedETH := trackedETH,
    untracked := untracked, feesETH := feesETH, feesUSD := feesUSD }

/-- `handleSwap` global updates: factory tx count, cumulative volumes and
fees, and the reset of the aggregate TVL before the pool's own TVL update. -/
def swapFactoryVolume (factory : FactoryEnt) (pool : PoolEnt) (a : SwapAmounts) : FactoryEnt :=
  let factory := { factory with
    txCount := factory.txCount + 1,
    totalVolumeETH := factory.totalVolumeETH + a.trackedETH,
    totalVolumeUSD := factory.totalVolumeUSD + a.tracked,
    untrackedVolumeUSD := factory.untrackedVolumeUSD + a.untracked,
    totalFeesETH := factory.totalFeesETH + a.feesETH,
    totalFeesUSD := factory.totalFeesUSD + a.feesUSD }
  { factory with totalValueLockedETH := factory.totalValueLockedETH - pool.totalValueLockedETH }

/-- `handleSwap` pool updates: volumes, tx count, and the overwrite of
liquidity/tick/sqrt price with the event's post-swap values. -/
def swapPoolVolume (pool : PoolEnt) (e : SwapEv) (a : SwapAmounts) : PoolEnt :=
  let pool := { pool with
    volumeToken0 := pool.volumeToken0 + a.amount0Abs,
    volumeToken1 := pool.volumeToken1 + a.amount1Abs,
    volumeUSD := pool.volumeUSD + a.tracked,
    untrackedVolumeUSD := pool.untrackedVolumeUSD + a.untracked,
    feesUSD := pool.feesUSD + a.feesUSD,
    txCount := pool.txCount + 1 }
  { pool with
    liquidity := e.liquidity, tick := some e.tick, sqrtPrice := e.sqrtPriceX96,
    totalValueLockedToken0 := pool.totalValueLockedToken0 + a.amount0,
    totalValueLockedToken1 := pool.totalValueLockedToken1 + a.amount1 }

/-- `handleSwap` per-token updates (volume, TVL delta, USD volumes, fees). -/
def swapTokenVolume (t : TokenEnt) (amountAbs amountSigned : Rat) (a : SwapAmounts) : TokenEnt :=
  { t with
    volume := t.volume + amountAbs,
    totalValueLocked := t.totalValueLocked + amountSigned,
    volumeUSD := t.volumeUSD + a.tracked,
    untrackedVolumeUSD := t.untrackedVolumeUSD + a.untracked,
    feesUSD := t.feesUSD + a.feesUSD,
    txCount := t.txCount + 1 }

/-- `handleSwap`: recompute the pool rates from the new sqrt price. -/
def swapPoolPrices (env : Env) (pool : PoolEnt) : PoolEnt :=
  let prices := env.sqrtPriceToPrices pool.sqrtPrice pool.token0 pool.token1
  { pool with token0Price := prices.1, token1Price := prices.2 }

/-- `handleSwap`: pool TVL in ETH/USD from the freshly refreshed prices. -/
def swapPoolTvl (pool : PoolEnt) (token0 token1 : TokenEnt) (bundle : BundleEnt) : PoolEnt :=
  let pool := { pool with
    totalValueLockedETH := pool.totalValueLockedToken0 * token0.derivedETH
      + pool.totalValueLockedToken1 * token1.derivedETH }
  { pool with totalValueLockedUSD := pool.totalValueLockedETH * bundle.ethPriceUSD }

/-- `handleSwap`: add the pool's new TVL back into the factory aggregate. -/
def swapFactoryTvl (factory : FactoryEnt) (pool : PoolEnt) (bundle : BundleEnt) : FactoryEnt :=
  let factory := { factory with
    totalValueLockedETH := factory.totalValueLockedETH + pool.totalValueLockedETH }
  { factory with totalValueLockedUSD := factory.totalValueLockedETH * bundle.ethPriceUSD }

/-- `handleSwap`: token TVL in USD from the refreshed prices. -/
def swapTokenTvlUSD (t : TokenEnt) (bundle : BundleEnt) : TokenEnt :=
  { t with totalValueLockedUSD := t.totalValueLocked * t.derivedETH * bundle.ethPriceUSD }

/-- `handleSwap`: refresh the fee-growth-global accumulators from the pool
contract. -/
def swapPoolFeeGrowth (env : Env) (td : TxDetails) (pool : PoolEnt) : PoolEnt :=
  { pool with
    feeGrowthGlobal0X128 := env.feeGrowthGlobal0 td.address,
    feeGrowthGlobal1X128 := env.feeGrowthGlobal1 td.address }

/-- `handleSwap` (core mappings).  The `Swap` record and interval data are
omitted; the final tick sweep calls `loadTickUpdateFeeVarsAndSave` on the
indices listed by `sweepRefreshIds`. -/
def handleSwap (env : Env) (td : TxDetails) (e : SwapEv) (s : State) : Option State :=
  match s.pools td.address with
  | none => some s
  | some pool =>
  if td.address = swapHotFixPoolAddress then some s
  else
  match s.bundle with
  | none => none
  | some bundle =>
  match s.factory with
  | none => none
  | some factory =>
  match s.tokens pool.token0, s.tokens pool.token1 with
  | some token0, some token1 =>
    match pool.tick with
    | none => none
    | some oldTick =>
      let a := swapAmounts env bundle pool token0 token1 e
      let factory1 := swapFactoryVolume factory pool a
      let pool1 := swapPoolVolume pool e a
      let token0a := swapTokenVolume token0 a.amount0Abs a.amount0 a
      let token1a := swapTokenVolume token1 a.amount1Abs a.amount1 a
      let pool2 := swapPoolPrices env pool1
      let bundle1 := { bundle with ethPriceUSD := env.ethPriceUSD }
      let token0b := { token0a with derivedETH := env.findEthPerToken pool2.token0 }
      let token1b := { token1a with derivedETH := env.findEthPerToken pool2.token1 }
      let pool3 := swapPoolTvl pool2 token0b token1b bundle1
      let factory2 := swapFactoryTvl factory1 pool3 bundle1
      let token0c := swapTokenTvlUSD token0b bundle1
      let token1c := swapTokenTvlUSD token1b bundle1
      let pool4 := swapPoolFeeGrowth env td pool3
      let s := { s with bundle := some bundle1 }
      let s := { s with factory := some factory2 }
      let s := s.setPool td.address pool4
      let s := s.setToken pool4.token0 token0c
      let s := s.setToken pool4.token1 token1c
      let newTick := e.tick
      let tickSpacing := env.feeTierToTickSpacing pool4.feeTier
      let s := (sweepRefreshIds oldTick newTick tickSpacing).foldl
        (fun st i => loadTickUpdateFeeVars env td i st) s
      some s
  | _, _ => none

/-- `handleFlash` (core mappings): refresh the two fee-growth-global
accumulators from the pool contract. -/
def handleFlash (env : Env) (td : TxDetails) (s : State) : Option State :=
  match s.pools td.address with
  | none => some s
  | some pool =>
    some (s.setPool td.address { pool with
      feeGrowthGlobal0X128 := env.feeGrowthGlobal0 td.address,
      feeGrowthGlobal1X128 := env.feeGrowthGlobal1 td.address })

/-- `getPosition` (position-manager mappings): load by token id, otherwise
create from a `positions(tokenId)` contract call; `none` when the position is
absent and the call reverts.  The created entity is not yet saved. -/
def getPosition (env : Env) (s : State) (tokenId : Int) : Option PositionEnt :=
  match s.positions (toString tokenId) with
  | some p => some p
  | none =>
    match env.positionsCall tokenId with
    | none => none
    | some r =>
      let poolAddr := env.getPool r.token0 r.token1 r.fee
      some {
        owner := addressZero, pool := poolAddr, token0 := r.token0, token1 := r.token1,
        tickLower := poolAddr ++ "#" ++ toString r.tickLower,
        tickUpper := poolAddr ++ "#" ++ toString r.tickUpper,
        liquidity := 0, depositedToken0 := 0, depositedToken1 := 0,
        withdrawnToken0 := 0, withdrawnToken1 := 0,
        collectedFeesToken0 := 0, collectedFeesToken1 := 0,
        feeGrowthInside0LastX128 := r.feeGrowthInside0,
        feeGrowthInside1LastX128 := r.feeGrowthInside1 }

/-- `updateFeeVars` (position-manager mappings): refresh the fee-growth-inside
snapshot unless the contract call reverts. -/
def updateFeeVars (env : Env) (p : PositionEnt) (tokenId : Int) : PositionEnt :=
  match env.positionsCall tokenId with
  | some r => { p with
    feeGrowthInside0LastX128 := r.feeGrowthInside0,
      feeGrowthInside1LastX128 := r.feeGrowthInside1 }
  | none => p

/-- `handleIncreaseLiquidity` (position-manager mappings).  `PositionSnapshot`
records are omitted. -/
def handleIncreaseLiquidity (env : Env) (td : TxDetails) (e : IncreaseLiquidityEv)
    (s : State) : Option State :=
  if td.blockNumber = 14317993 then some s
  else
    match getPosition env s e.tokenId with
    | none => some s
    | some position =>
      if position.pool = excludedPoolAddress then some s
      else
        match s.tokens position.token0, s.tokens position.token1 with
        | some token0, some token1 =>
          let amount0 := convertTokenToDecimal e.amount0 token0.decimals
          let amount1 := convertTokenToDecimal e.amount1 token1.decimals
          let position := { position with
            liquidity := position.liquidity + e.liquidity,
            depositedToken0 := position.depositedToken0 + amount0,
            depositedToken1 := position.depositedToken1 + amount1 }
          let position := updateFeeVars env position e.tokenId
          some (s.setPosition (toString e.tokenId) position)
        | _, _ => none

/-- `handleDecreaseLiquidity` (position-manager mappings). -/
def handleDecreaseLiquidity (env : Env) (td : TxDetails) (e : DecreaseLiquidityEv)
    (s : State) : Option State :=
  if td.blockNumber = 14317993 then some s
  else
    match getPosition env s e.tokenId with
    | none => some s
    | some position =>
      if position.pool = excludedPoolAddress then some s
      else
        match s.tokens position.token0, s.tokens position.token1 with
        | some token0, some token1 =>
          let amount0 := convertTokenToDecimal e.amount0 token0.decimals
          let amount1 := convertTokenToDecimal e.amount1 token1.decimals
          let position := { position with
            liquidity := position.liquidity - e.liquidity,
            withdrawnToken0 := position.withdrawnToken0 + amount0,
            withdrawnToken1 := position.withdrawnToken1 + amount1 }
          let position := updateFeeVars env position e.tokenId
          some (s.setPosition (toString e.tokenId) position)
        | _, _ => none

/-- `handleCollect` (position-manager mappings).  Only `token0` is loaded;
`amount0` is the only amount read, and the source adds it to both
`collectedFeesToken0` and `collectedFeesToken1`. -/
def handleCollect (env : Env) (_td : TxDetails) (e : CollectEv) (s : State) : Option State :=
  match getPosition env s e.tokenId with
  | none => some s
  | some position =>
    if position.pool = excludedPoolAddress then some s
    else
      match s.tokens position.token0 with
      | none => none
      | some token0 =>
        let amount0 := convertTokenToDecimal e.amount0 token0.decimals
        let position := { position with
          collectedFeesToken0 := position.collectedFeesToken0 + amount0,
          collectedFeesToken1 := position.collectedFeesToken1 + amount0 }
        let position := updateFeeVars env position e.tokenId
        some (s.setPosition (toString e.tokenId) position)

/-- `handleTransfer` (position-manager mappings): reassign ownership. -/
def handleTransfer (env : Env) (_td : TxDetails) (e : TransferEv) (s : State) : Option State :=
  match getPosition env s e.tokenId with
  | none => some s
  | some position =>
    some (s.setPosition (toString e.tokenId) { position with owner := e.toAddr })

/-- A freshly created `Factory` singleton (`handlePoolCreated`). -/
def newFactory : FactoryEnt :=
  { poolCount := 0, txCount := 0, totalVolumeETH := 0, totalVolumeUSD := 0,
    untrackedVolumeUSD := 0, totalFeesETH := 0, totalFeesUSD := 0,
    totalValueLockedETH := 0, totalValueLockedUSD := 0,
    totalValueLockedUSDUntracked := 0, totalValueLockedETHUntracked := 0,
    owner := addressZero }

/-- A freshly created `Token` with the given on-chain decimals
(`handlePoolCreated`; the fetched symbol/name/totalSupply fields are
omitted). -/
def newToken (decimals : Int) : TokenEnt :=
  { decimals := decimals, derivedETH := 0, volume := 0, volumeUSD := 0,
    untrackedVolumeUSD := 0, feesUSD := 0, totalValueLocked := 0,
    totalValueLockedUSD := 0, totalValueLockedUSDUntracked := 0,
    txCount := 0, poolCount := 0, whitelistPools := [] }

/-- The zero-initialized `Pool` entity written by `handlePoolCreated`
(`tick` stays null until `Initialize`). -/
def newPool (td : TxDetails) (e : PoolCreatedEv) : PoolEnt :=
  { token0 := e.token0, token1 := e.token1, feeTier := e.fee,
    createdAtTimestamp := td.blockTimestamp, createdAtBlockNumber := td.blockNumber,
    tick := none, liquidity := 0, sqrtPrice := 0, txCount := 0,
    token0Price := 0, token1Price := 0, volumeToken0 := 0, volumeToken1 := 0,
    volumeUSD := 0, untrackedVolumeUSD := 0, feesUSD := 0,
    totalValueLockedToken0 := 0, totalValueLockedToken1 := 0,
    totalValueLockedETH := 0, totalValueLockedUSD := 0,
    totalValueLockedUSDUntracked := 0, collectedFeesToken0 := 0,
    collectedFeesToken1 := 0, collectedFeesUSD := 0,
    feeGrowthGlobal0X128 := 0, feeGrowthGlobal1X128 := 0 }

/-- `handlePoolCreated` (factory mappings).  Creates the Factory/Bundle
singletons on first use (the bundle is saved inside that branch, the factory
only at the end), increments `poolCount` unconditionally, creates missing
tokens (bailing out of the whole handler when a decimals lookup fails, which
loses the unsaved factory/token objects), registers whitelist pools, and
writes a zero-initialized pool under the event's pool address.
`PoolTemplate.create` (dynamic source registration) has no store effect. -/
def handlePoolCreated (env : Env) (td : TxDetails) (e : PoolCreatedEv)
    (s : State) : Option State :=
  if e.pool = excludedPoolAddress then some s
  else
    let fb : FactoryEnt × State :=
      match s.factory with
      | some f => (f, s)
      | none => (newFactory, { s with bundle := some { ethPriceUSD := 0 } })
    let factory := fb.1
    let s := fb.2
    let factory := { factory with poolCount := factory.poolCount + 1 }
    let t0res : Option TokenEnt :=
      match s.tokens e.token0 with
      | some t => some t
      | none => (env.fetchDecimals e.token0).map newToken
    match t0res with
    | none => some s
    | some token0 =>
      let t1res : Option TokenEnt :=
        match s.tokens e.token1 with
        | some t => some t
        | none => (env.fetchDecimals e.token1).map newToken
      match t1res with
      | none => some s
      | some token1 =>
        let token1 :=
          if env.whitelistTokens.contains e.token0 then
            { token1 with whitelistPools := token1.whitelistPools ++ [e.pool] }
          else token1
        let token0 :=
          if env.whitelistTokens.contains e.token1 then
            { token0 with whitelistPools := token0.whitelistPools ++ [e.pool] }
          else token0
        let s := s.setPool e.pool (newPool td e)
        let s := s.setToken e.token0 token0
        let s := s.setToken e.token1 token1
        let s := { s with factory := some factory }
        some s

/-! ## Dispatcher (`src/src/mappings/fast.ts`)

`handleBlock` decodes the batch and routes every event to its handler in
order.  The payload is modelled as the already-decoded variant (the
discriminant/`Any`-payload pairing is the codec's concern, not the
dispatcher claims'). -/

inductive EventPayload where
  | poolCreated (e : PoolCreatedEv)
  | increaseLiquidity (e : IncreaseLiquidityEv)
  | decreaseLiquidity (e : DecreaseLiquidityEv)
  | collect (e : CollectEv)
  | transfer (e : TransferEv)
  | initEvt (e : InitEv)
  | swap (e : SwapEv)
  | mint (e : MintEv)
  | burn (e : BurnEv)
  | flash

structure EventRec where
  td : TxDetails
  payload : EventPayload

def processEvent (env : Env) (ev : EventRec) (s : State) : Option State :=
  match ev.payload with
  | .poolCreated e => handlePoolCreated env ev.td e s
  | .increaseLiquidity e => handleIncreaseLiquidity env ev.td e s
  | .decreaseLiquidity e => handleDecreaseLiquidity env ev.td e s
  | .collect e => handleCollect env ev.td e s
  | .transfer e => handleTransfer env ev.td e s
  | .initEvt e => handleInit env ev.td e s
  | .swap e => handleSwap env ev.td e s
  | .mint e => handleMint env ev.td e s
  | .burn e => handleBurn env ev.td e s
  | .flash => handleFlash env ev.td s

/-- Strictly ordered batch processing; a trap (`none`) aborts the batch. -/
def processEvents (env : Env) : State → List EventRec → Option State
  | s, [] => some s
  | s, ev :: evs =>
    match processEvent env ev s with
    | none => none
    | some s2 => processEvents env s2 evs

/-- The precondition of the failure-policy claim: the event references a pool
with no entity (pool events), or a position that is absent from the store
while the position-manager lookup call reverts (position events). -/
def unresolvedRef (env : Env) (s : State) (ev : EventRec) : Prop :=
  match ev.payload with
  | .initEvt _ => s.pools ev.td.address = none
  | .swap _ => s.pools ev.td.address = none
  | .mint _ => s.pools ev.td.address = none
  | .burn _ => s.pools ev.td.address = none
  | .flash => s.pools ev.td.address = none
  | .increaseLiquidity e =>
    s.positions (toString e.tokenId) = none ∧ env.positionsCall e.tokenId = none
  | .decreaseLiquidity e =>
    s.positions (toString e.tokenId) = none ∧ env.positionsCall e.tokenId = none
  | .collect e =>
    s.positions (toString e.tokenId) = none ∧ env.positionsCall e.tokenId = none
  | .transfer e =>
    s.positions (toString e.tokenId) = none ∧ env.positionsCall e.tokenId = none
  | .poolCreated _ => False

/-! ## Concrete fixtures

Closed sample inputs used to witness the theorems on concrete data. -/

def fxEnv : Env :=
  { ethPriceUSD := 0, findEthPerToken := fun _ => 0,
    trackedAmountUSD := fun _ _ _ _ => 0, sqrtPriceToPrices := fun _ _ _ => (0, 0),
    feeGrowthGlobal0 := fun _ => 0, feeGrowthGlobal1 := fun _ => 0,
    tickFeeGrowth := fun _ _ => (0, 0), feeTierToTickSpacing := fun _ => 60,
    positionsCall := fun _ => none, getPool := fun _ _ _ => "",
    fetchDecimals := fun _ => some 18, whitelistTokens := [] }

def fxTd : TxDetails :=
  { address := "0xf00", blockNumber := 1000, blockTimestamp := 1620000000 }

def fxTdExcluded : TxDetails :=
  { address := "0xf00", blockNumber := 14317993, blockTimestamp := 1620000000 }

def fxState0 : State :=
  { pools := fun _ => none, tokens := fun _ => none, ticks := fun _ => none,
    positions := fun _ => none, factory := none, bundle := none }

def fxPoolCreatedEv : PoolCreatedEv :=
  { token0 := "0xa", token1 := "0xb", fee := 3000, tickSpacing := 60, pool := "0xp" }

def fxPool : PoolEnt := { newPool fxTd fxPoolCreatedEv with tick := some 50 }

/-- Tokens `0xa`/`0xb` known, nothing else. -/
def fxStateTokens : State :=
  { fxState0 with
    tokens := fun k => if k = "0xa" ∨ k = "0xb" then some (newToken 18) else none }

/-- A pool at the dispatch address with current tick 50, both tokens, the
singletons, and no tick entities. -/
def fxStateMint : State :=
  { fxStateTokens with
    pools := fun k => if k = "0xf00" then some fxPool else none,
    factory := some newFactory,
    bundle := some { ethPriceUSD := 2000 } }

def fxFactory1 : FactoryEnt := { newFactory with poolCount := 1 }

/-- The state after `fxPoolCreatedEv` has already been processed once:
the pool exists and the factory counts one pool. -/
def fxStateReplay : State :=
  { fxStateTokens with
    pools := fun k => if k = "0xp" then some (newPool fxTd fxPoolCreatedEv) else none,
    factory := some fxFactory1,
    bundle := some { ethPriceUSD := 0 } }

def fxMintEv : MintEv :=
  { sender := "0xs", owner := "0xo", tickLower := -100, tickUpper := 100,
    amount := 7, amount0 := 1000, amount1 := 2000, logIndex := 1,
    transactionFrom := "0xt" }

def fxBurnEv : BurnEv :=
  { owner := "0xo", tickLower := -100, tickUpper := 100, amount := 7,
    amount0 := 1000, amount1 := 2000, logIndex := 1, transactionFrom := "0xt" }

def fxSwapEv : SwapEv :=
  { sender := "0xs", recipient := "0xr", amount0 := 1000, amount1 := -990,
    sqrtPriceX96 := 79228162514264337593543950336, liquidity := 5, tick := 430,
    logIndex := 1, transactionFrom := "0xt" }

def fxPosition : PositionEnt :=
  { owner := addressZero, pool := "0xp", token0 := "0xa", token1 := "0xb",
    tickLower := "0xp#-100", tickUpper := "0xp#100", liquidity := 0,
    depositedToken0 := 0, depositedToken1 := 0, withdrawnToken0 := 0,
    withdrawnToken1 := 0, collectedFeesToken0 := 3, collectedFeesToken1 := 5,
    feeGrowthInside0LastX128 := 0, feeGrowthInside1LastX128 := 0 }

/-- A state holding position `7` and token `0xa`. -/
def fxStatePos : State :=
  { fxStateTokens with
    positions := fun k => if k = "7" then some fxPosition else none }

def fxCollectEv : CollectEv :=
  { tokenId := 7, recipient := "0xr", amount0 := 1000, amount1 := 999 }

def fxIncreaseEv : IncreaseLiquidityEv :=
  { tokenId := 7, liquidity := 11, amount0 := 1000, amount1 := 2000 }

def fxDecreaseEv : DecreaseLiquidityEv :=
  { tokenId := 7, liquidity := 11, amount0 := 1000, amount1 := 2000 }

/-! ## Helper lemmas on the sweep loops -/

theorem sweepUp_cons (i n s : Int) (hs : 0 < s) (hle : i ≤ n) :
    sweepUp i n s = i :: sweepUp (i + s) n s := by
  rw [sweepUp]
  simp [hs, hle]

theorem sweepUp_nil (i n s : Int) (hgt : ¬ (0 < s ∧ i ≤ n)) :
    sweepUp i n s = [] := by
  rw [sweepUp]
  simp [hgt]

theorem sweepDown_cons (i n s : Int) (hs : 0 < s) (hle : n ≤ i) :
    sweepDown i n s = i :: sweepDown (i - s) n s := by
  rw [sweepDown]
  simp [hs, hle]

theorem sweepDown_nil (i n s : Int) (hgt : ¬ (0 < s ∧ n ≤ i)) :
    sweepDown i n s = [] := by
  rw [sweepDown]
  simp [hgt]

theorem sweepUp_length_aux (s : Int) (hs : 0 < s) :
    ∀ (k : Nat) (i n : Int), (n + 1 - i).toNat ≤ k →
      (sweepUp i n s).length = if i ≤ n then (n - i).toNat / s.toNat + 1 else 0 := by
  intro k
  induction k with
  | zero =>
    intro i n hk
    have hni : ¬ i ≤ n := by omega
    rw [sweepUp_nil _ _ _ (by tauto)]
    simp [hni]
  | succ k ih =>
    intro i n hk
    by_cases hle : i ≤ n
    · rw [sweepUp_cons _ _ _ hs hle, List.length_cons, ih (i + s) n (by omega)]
      rw [if_pos hle]
      by_cases h2 : i + s ≤ n
      · rw [if_pos h2]
        have h3 : (n - i).toNat = (n - (i + s)).toNat + s.toNat := by omega
        rw [h3, Nat.add_div_right _ (by omega)]
      · rw [if_neg h2]
        have h4 : (n - i).toNat < s.toNat := by omega
        rw [Nat.div_eq_of_lt h4]
    · rw [sweepUp_nil _ _ _ (by tauto)]
      simp [hle]

theorem sweepUp_length (i n s : Int) (hs : 0 < s) :
    (sweepUp i n s).length = if i ≤ n then (n - i).toNat / s.toNat + 1 else 0 :=
  sweepUp_length_aux s hs ((n + 1 - i).toNat) i n le_rfl

theorem sweepDown_length_aux (s : Int) (hs : 0 < s) :
    ∀ (k : Nat) (i n : Int), (i + 1 - n).toNat ≤ k →
      (sweepDown i n s).length = if n ≤ i then (i - n).toNat / s.toNat + 1 else 0 := by
  intro k
  induction k with
  | zero =>
    intro i n hk
    have hni : ¬ n ≤ i := by omega
    rw [sweepDown_nil _ _ _ (by tauto)]
    simp [hni]
  | succ k ih =>
    intro i n hk
    by_cases hle : n ≤ i
    · rw [sweepDown_cons _ _ _ hs hle, List.length_cons, ih (i - s) n (by omega)]
      rw [if_pos hle]
      by_cases h2 : n ≤ i - s
      · rw [if_pos h2]
        have h3 : (i - n).toNat = (i - s - n).toNat + s.toNat := by omega
        rw [h3, Nat.add_div_right _ (by omega)]
      · rw [if_neg h2]
        have h4 : (i - n).toNat < s.toNat := by omega
        rw [Nat.div_eq_of_lt h4]
    · rw [sweepDown_nil _ _ _ (by tauto)]
      simp [hle]

theorem sweepDown_length (i n s : Int) (hs : 0 < s) :
    (sweepDown i n s).length = if n ≤ i then (i - n).toNat / s.toNat + 1 else 0 :=
  sweepDown_length_aux s hs ((i + 1 - n).toNat) i n le_rfl

/-- `tmod` truncates, so its absolute value is the `Nat` remainder of the
absolute values. -/
theorem tmod_natAbs_eq : ∀ (a b : Int), (a.tmod b).natAbs = a.natAbs % b.natAbs
  | .ofNat _, .ofNat _ => rfl
  | .ofNat _, .negSucc _ => rfl
  | .negSucc m, .ofNat n => by
    show ((-(Int.ofNat ((m + 1) % n))).natAbs) = (m + 1) % n
    rw [Int.natAbs_neg]
    rfl
  | .negSucc m, .negSucc n => by
    show ((-(Int.ofNat ((m + 1) % (n + 1)))).natAbs) = (m + 1) % (n + 1)
    rw [Int.natAbs_neg]
    rfl

/-- Universal bound on the number of refresh calls the sweep performs: the
guard only compares `⌊|oldTick − newTick| / tickSpacing⌋` with 100, while the
loop starts from a shifted first index and includes both endpoints, and the
aligned-`newTick` refresh precedes it, so up to 102 calls can happen. -/
theorem sweepRefreshIds_length_le (o n s : Int) (hs : 1 ≤ s) :
    (sweepRefreshIds o n s).length ≤ 102 := by
  have hspos : 0 < s := hs
  have hS : (0 : Nat) < s.toNat := by omega
  have hmabs : (n.tmod s).natAbs < s.natAbs := by
    rw [tmod_natAbs_eq]
    exact Nat.mod_lt _ (by omega)
  unfold sweepRefreshIds
  simp only [List.length_append]
  have hinit : (if n.tmod s = 0 then [n] else ([] : List Int)).length ≤ 1 := by
    split <;> simp
  by_cases h100 : 100 < (((o - n).natAbs : Int)).tdiv s
  · rw [if_pos h100]
    simp only [List.length_nil]
    omega
  · have hNI : (((o - n).natAbs : Int)).tdiv s = (((o - n).natAbs / s.toNat : Nat) : Int) := by
      conv_lhs => rw [show s = ((s.toNat : Nat) : Int) by omega]
      rw [← Int.ofNat_tdiv]
    have hAlt : (o - n).natAbs < 101 * s.toNat := by
      refine (Nat.div_lt_iff_lt_mul hS).mp ?_
      rw [hNI] at h100
      omega
    rw [if_neg h100]
    rcases lt_trichotomy o n with ho | ho | ho
    · rw [if_pos ho]
      have hlen : (sweepUp (o + (s - n.tmod s)) n s).length ≤ 101 := by
        rw [sweepUp_length _ _ _ hspos]
        split
        · have h1 : (n - (o + (s - n.tmod s))).toNat < 101 * s.toNat := by omega
          have h2 := (Nat.div_lt_iff_lt_mul hS).mpr h1
          omega
        · omega
      omega
    · have hno1 : ¬ o < n := by omega
      have hno2 : ¬ n < o := by omega
      rw [if_neg hno1, if_neg hno2]
      simp only [List.length_nil]
      omega
    · have hno1 : ¬ o < n := by omega
      rw [if_neg hno1, if_pos ho]
      by_cases hm0 : n.tmod s = 0
      · have hlen : (sweepDown (o - n.tmod s) n s).length ≤ 101 := by
          rw [sweepDown_length _ _ _ hspos]
          split
          · have h1 : ((o - n.tmod s) - n).toNat < 101 * s.toNat := by omega
            have h2 := (Nat.div_lt_iff_lt_mul hS).mpr h1
            omega
          · omega
        omega
      · have hlen : (sweepDown (o - n.tmod s) n s).length ≤ 102 := by
          rw [sweepDown_length _ _ _ hspos]
          split
          · have h1 : ((o - n.tmod s) - n).toNat < 102 * s.toNat := by omega
            have h2 := (Nat.div_lt_iff_lt_mul hS).mpr h1
            omega
          · omega
        have hinit0 : (if n.tmod s = 0 then [n] else ([] : List Int)).length = 0 := by
          simp [hm0]
        omega

/-- The swept index list at `oldTick = 100`, `newTick = 430`,
`tickSpacing = 60`. -/
theorem sweepRefreshIds_spec_instance :
    sweepRefreshIds 100 430 60 = [150, 210, 270, 330, 390] := by
  unfold sweepRefreshIds
  norm_num [show ((430 : Int)).tmod 60 = 10 by decide,
    show (((100 - 430 : Int)).natAbs : Int).tdiv 60 = 5 by decide,
    show Int.tdiv 330 60 = 5 by decide]
  rw [sweepUp_cons _ _ _ (by norm_num) (by norm_num)]
  rw [sweepUp_cons _ _ _ (by norm_num) (by norm_num)]
  rw [sweepUp_cons _ _ _ (by norm_num) (by norm_num)]
  rw [sweepUp_cons _ _ _ (by norm_num) (by norm_num)]
  rw [sweepUp_cons _ _ _ (by norm_num) (by norm_num)]
  rw [sweepUp_nil _ _ _ (by norm_num)]
  norm_num

/-! ## Claims -/

/-- C1 (counterexample): for `oldTick = 100`, `newTick = 430`,
`tickSpacing = 60` the sweep refreshes exactly the indices
`[150, 210, 270, 330, 390]` — it starts from `oldTick + (tickSpacing −
newTick mod tickSpacing) = 150` — and in particular tick 120 of the claimed
set `{120, 180, 240, 300, 360, 420}` is never refreshed. -/
theorem claim1_sweep_counterexample :
    sweepRefreshIds 100 430 60 = [150, 210, 270, 330, 390] ∧
    ¬ (120 : Int) ∈ sweepRefreshIds 100 430 60 := by
  refine ⟨sweepRefreshIds_spec_instance, ?_⟩
  rw [sweepRefreshIds_spec_instance]
  decide

/-- C1 (amended): for `oldTick = 100`, `newTick = 430`, `tickSpacing = 60`
the tick-crossing sweep refreshes exactly `{150, 210, 270, 330, 390}`
(stepping by 60 from `oldTick + (tickSpacing − newTick mod tickSpacing)`,
so `newTick mod tickSpacing = 10 ≠ 0` adds no extra refresh), and for every
positive tick spacing the sweep performs at most 102 refresh calls. -/
theorem claim1_sweep_amended :
    sweepRefreshIds 100 430 60 = [150, 210, 270, 330, 390] ∧
    ∀ oldTick newTick tickSpacing : Int, 1 ≤ tickSpacing →
      (sweepRefreshIds oldTick newTick tickSpacing).length ≤ 102 :=
  ⟨sweepRefreshIds_spec_instance, fun o n s hs => sweepRefreshIds_length_le o n s hs⟩

/-- C1 (witness): the amended bound applied at the spec's instance. -/
theorem claim1_sweep_amended_witness :
    (1 : Int) ≤ 60 ∧ (sweepRefreshIds 100 430 60).length ≤ 102 :=
  ⟨by norm_num, claim1_sweep_amended.2 100 430 60 (by norm_num)⟩

/-- C2: the message round-trip `decode (encode m) = m` fails on `Event`: with
every field default except `block_number = −2^31`, the encoder emits the
sign-extended ten-byte varint, whose ninth and tenth bytes the decoder folds
back in at shifts 28/35, so the field decodes to `−268435456`.  (With all
fields default the round-trip does hold: nothing is emitted and everything
decodes back to its zero value.) -/
theorem claim2_event_roundtrip_fails :
    eventDecode (eventEncode { eventMsgDefault with blockNumber := -(2 ^ 31) }) ≠
      some { eventMsgDefault with blockNumber := -(2 ^ 31) } ∧
    (eventDecode (eventEncode { eventMsgDefault with blockNumber := -(2 ^ 31) })).map
      EventMsg.blockNumber = some (-268435456) ∧
    eventDecode (eventEncode eventMsgDefault) = some eventMsgDefault := by
  decide

/-- C3: the varint round-trip holds for `0`, `127`, `128` and `2^35` but
fails for `2^63 − 1`, which decodes to `2^56 − 1` because the decoder's ninth
and tenth shifts repeat 28/35 instead of 56/63; the zigzag `sint32`
round-trip holds at `−1` and `0` but collapses `INT32_MIN` to `0` (the
encoder sign-extends the 32-bit zigzag image to 64 bits and the broken
ten-byte decode then loses the high bits). -/
theorem claim3_varint_roundtrip_fails :
    (parseVarint (varintEncode (2 ^ 63 - 1))).map Prod.fst = some (2 ^ 56 - 1) ∧
    (2 ^ 56 - 1 : Nat) ≠ 2 ^ 63 - 1 ∧
    (parseVarint (varintEncode 0)).map Prod.fst = some 0 ∧
    (parseVarint (varintEncode 127)).map Prod.fst = some 127 ∧
    (parseVarint (varintEncode 128)).map Prod.fst = some 128 ∧
    (parseVarint (varintEncode (2 ^ 35))).map Prod.fst = some (2 ^ 35) ∧
    parseSint32 (encodeSint32 (-(2 ^ 31))) = some 0 ∧
    parseSint32 (encodeSint32 (-1)) = some (-1) ∧
    parseSint32 (encodeSint32 0) = some 0 ∧
    parseSint64 (encodeSint64 (-5)) = some (-5) := by
  decide

/-- C4: `size()` is not the encoded byte length: for a `PoolCreated` whose
`token0` is the single character U+00E9 (`é`), `size()` counts
`1 (tag) + 1 (length prefix) + 1 (UTF-16 length)` = 3 while the encoder
emits `1 + 1 + 2 (UTF-8 bytes)` = 4. -/
theorem claim4_sizer_mismatch :
    poolCreatedSize
      { token0 := [0xE9], token1 := [], fee := [], tickSpacing := [], pool := [] } = 3 ∧
    (poolCreatedEncode
      { token0 := [0xE9], token1 := [], fee := [], tickSpacing := [], pool := [] }).length = 4 ∧
    (3 : Nat) ≠ 4 := by
  decide

/-- C7: an event whose referenced pool has no entity (Initialize, Swap, Mint,
Burn, Flash) or whose position is absent while the position-manager call
reverts (IncreaseLiquidity, DecreaseLiquidity, Collect, Transfer) is handled
by returning the state unchanged without trapping, and batch processing
continues with the next event. -/
theorem claim7_unresolved_ref_skips (env : Env) (s : State) (ev : EventRec)
    (evs : List EventRec) (h : unresolvedRef env s ev) :
    processEvent env ev s = some s ∧
    processEvents env s (ev :: evs) = processEvents env s evs := by
  have hskip : processEvent env ev s = some s := by
    rcases ev with ⟨td, payload⟩
    cases payload with
    | poolCreated e => exact absurd h (by simp [unresolvedRef])
    | increaseLiquidity e =>
      simp only [unresolvedRef] at h
      simp [processEvent, handleIncreaseLiquidity, getPosition, h.1, h.2, ite_self]
    | decreaseLiquidity e =>
      simp only [unresolvedRef] at h
      simp [processEvent, handleDecreaseLiquidity, getPosition, h.1, h.2, ite_self]
    | collect e =>
      simp only [unresolvedRef] at h
      simp [processEvent, handleCollect, getPosition, h.1, h.2]
    | transfer e =>
      simp only [unresolvedRef] at h
      simp [processEvent, handleTransfer, getPosition, h.1, h.2]
    | initEvt e =>
      simp only [unresolvedRef] at h
      simp [processEvent, handleInit, h]
    | swap e =>
      simp only [unresolvedRef] at h
      simp [processEvent, handleSwap, h]
    | mint e =>
      simp only [unresolvedRef] at h
      simp [processEvent, handleMint, h]
    | burn e =>
      simp only [unresolvedRef] at h
      simp [processEvent, handleBurn, h]
    | flash =>
      simp only [unresolvedRef] at h
      simp [processEvent, handleFlash, h]
  exact ⟨hskip, by simp [processEvents, hskip]⟩

/-- C7 (witness): a Swap event on the empty store is skipped and the batch
continues. -/
theorem claim7_unresolved_ref_skips_witness :
    unresolvedRef fxEnv fxState0 ⟨fxTd, .swap fxSwapEv⟩ ∧
    processEvent fxEnv ⟨fxTd, .swap fxSwapEv⟩ fxState0 = some fxState0 ∧
    processEvents fxEnv fxState0 [⟨fxTd, .swap fxSwapEv⟩] =
      processEvents fxEnv fxState0 [] :=
  ⟨rfl, (claim7_unresolved_ref_skips fxEnv fxState0 ⟨fxTd, .swap fxSwapEv⟩ [] rfl).1,
    (claim7_unresolved_ref_skips fxEnv fxState0 ⟨fxTd, .swap fxSwapEv⟩ [] rfl).2⟩

/-- C9: at block number 14317993 the IncreaseLiquidity and DecreaseLiquidity
handlers return immediately with the state unchanged, for every payload. -/
theorem claim9_block_14317993_excluded (env : Env) (td : TxDetails)
    (ei : IncreaseLiquidityEv) (ed : DecreaseLiquidityEv) (s : State)
    (h : td.blockNumber = 14317993) :
    handleIncreaseLiquidity env td ei s = some s ∧
    handleDecreaseLiquidity env td ed s = some s := by
  constructor <;> simp [handleIncreaseLiquidity, handleDecreaseLiquidity, h]

/-- C9 (witness): the exclusion applied at a concrete transaction context. -/
theorem claim9_block_14317993_excluded_witness :
    fxTdExcluded.blockNumber = 14317993 ∧
    handleIncreaseLiquidity fxEnv fxTdExcluded fxIncreaseEv fxState0 = some fxState0 ∧
    handleDecreaseLiquidity fxEnv fxTdExcluded fxDecreaseEv fxState0 = some fxState0 := by
  have h := claim9_block_14317993_excluded fxEnv fxTdExcluded fxIncreaseEv fxDecreaseEv
    fxState0 rfl
  exact ⟨rfl, h.1, h.2⟩

/-- C8: when the position resolves and its pool is not the excluded address,
the Collect handler adds the decimals-adjusted `amount0` to both
`collectedFeesToken0` and `collectedFeesToken1`, and `amount1` has no effect
on the result. -/
theorem claim8_collect_double_counts_token0 (env : Env) (td : TxDetails)
    (e : CollectEv) (s : State) (p : PositionEnt) (tok0 : TokenEnt)
    (hpos : getPosition env s e.tokenId = some p)
    (hexcl : p.pool ≠ excludedPoolAddress)
    (ht0 : s.tokens p.token0 = some tok0) :
    ∃ p2, handleCollect env td e s = some (s.setPosition (toString e.tokenId) p2) ∧
      p2.collectedFeesToken0 =
        p.collectedFeesToken0 + convertTokenToDecimal e.amount0 tok0.decimals ∧
      p2.collectedFeesToken1 =
        p.collectedFeesToken1 + convertTokenToDecimal e.amount0 tok0.decimals ∧
      ∀ x : Int, handleCollect env td { e with amount1 := x } s =
        handleCollect env td e s := by
  refine ⟨updateFeeVars env { p with
      collectedFeesToken0 := p.collectedFeesToken0 + convertTokenToDecimal e.amount0 tok0.decimals,
      collectedFeesToken1 := p.collectedFeesToken1 + convertTokenToDecimal e.amount0 tok0.decimals }
      e.tokenId, ?_, ?_, ?_, ?_⟩
  · simp [handleCollect, hpos, hexcl, ht0]
  · cases henv : env.positionsCall e.tokenId <;> simp [updateFeeVars, henv]
  · cases henv : env.positionsCall e.tokenId <;> simp [updateFeeVars, henv]
  · intro x
    rfl

/-- C8 (witness): Collect of `amount0 = 1000`, `amount1 = 999` on position 7
lands `1000 / 10^18` on both collected-fee accumulators. -/
theorem claim8_collect_double_counts_token0_witness :
    getPosition fxEnv fxStatePos fxCollectEv.tokenId = some fxPosition ∧
    fxPosition.pool ≠ excludedPoolAddress ∧
    fxStatePos.tokens fxPosition.token0 = some (newToken 18) ∧
    (∃ p2, handleCollect fxEnv fxTd fxCollectEv fxStatePos =
        some (fxStatePos.setPosition (toString fxCollectEv.tokenId) p2) ∧
      p2.collectedFeesToken0 = fxPosition.collectedFeesToken0 +
        convertTokenToDecimal fxCollectEv.amount0 (newToken 18).decimals ∧
      p2.collectedFeesToken1 = fxPosition.collectedFeesToken1 +
        convertTokenToDecimal fxCollectEv.amount0 (newToken 18).decimals ∧
      ∀ x : Int, handleCollect fxEnv fxTd { fxCollectEv with amount1 := x } fxStatePos =
        handleCollect fxEnv fxTd fxCollectEv fxStatePos) :=
  ⟨rfl, by decide, rfl,
    claim8_collect_double_counts_token0 fxEnv fxTd fxCollectEv fxStatePos fxPosition
      (newToken 18) rfl (by decide) rfl⟩

/-- C10: with the pool, singletons and tokens present but either boundary
tick entity absent — the lower or the upper — `handleBurn` traps on the
corresponding non-null assertion, while `handleMint` on the same state
succeeds and creates both boundary ticks. -/
theorem claim10_burn_missing_tick_traps (env : Env) (td : TxDetails) (e : BurnEv)
    (s : State) (pool : PoolEnt) (factory : FactoryEnt) (bundle : BundleEnt)
    (t0 t1 : TokenEnt)
    (hp : s.pools td.address = some pool)
    (hf : s.factory = some factory)
    (hb : s.bundle = some bundle)
    (ht0 : s.tokens pool.token0 = some t0)
    (ht1 : s.tokens pool.token1 = some t1)
    (hlu : s.ticks (tickKey td.address e.tickLower) = none ∨
      s.ticks (tickKey td.address e.tickUpper) = none) :
    handleBurn env td e s = none ∧
    ∀ em : MintEv, ∃ s2, handleMint env td em s = some s2 ∧
      (s2.ticks (tickKey td.address em.tickLower)).isSome ∧
      (s2.ticks (tickKey td.address em.tickUpper)).isSome := by
  constructor
  · rcases hlu with hlt | hut
    · simp [handleBurn, hp, hf, hb, ht0, ht1, hlt]
    · cases hl : s.ticks (tickKey td.address e.tickLower) with
      | none => simp [handleBurn, hp, hf, hb, ht0, ht1, hl]
      | some lt => simp [handleBurn, hp, hf, hb, ht0, ht1, hl, hut]
  · intro em
    simp only [handleMint, hp, hb, hf, ht0, ht1]
    refine ⟨_, rfl, ?_, ?_⟩
    · simp only [updateTickFeeVars, State.setTick]
      split
      · simp
      · simp
    · simp [updateTickFeeVars, State.setTick]

/-- C10 (witness): burn of the range [−100, 100] traps on the missing lower
tick while the mint succeeds. -/
theorem claim10_burn_missing_tick_traps_witness :
    (fxStateMint.ticks (tickKey fxTd.address fxBurnEv.tickLower) = none ∨
      fxStateMint.ticks (tickKey fxTd.address fxBurnEv.tickUpper) = none) ∧
    handleBurn fxEnv fxTd fxBurnEv fxStateMint = none ∧
    (∃ s2, handleMint fxEnv fxTd fxMintEv fxStateMint = some s2 ∧
      (s2.ticks (tickKey fxTd.address fxMintEv.tickLower)).isSome ∧
      (s2.ticks (tickKey fxTd.address fxMintEv.tickUpper)).isSome) := by
  have h := claim10_burn_missing_tick_traps fxEnv fxTd fxBurnEv fxStateMint fxPool
    newFactory { ethPriceUSD := 2000 } (newToken 18) (newToken 18) rfl rfl rfl rfl rfl
    (Or.inl rfl)
  exact ⟨Or.inl rfl, h.1, h.2 fxMintEv⟩

/-- C6 (counterexample): processing the identical PoolCreated event twice
from a store that already knows both tokens leaves `Factory.poolCount = 2`,
not 1 — the handler increments the counter unconditionally. -/
theorem claim6_poolcreated_replay_counterexample :
    (((handlePoolCreated fxEnv fxTd fxPoolCreatedEv fxStateTokens).bind
        (handlePoolCreated fxEnv fxTd fxPoolCreatedEv)).bind State.factory).map
      FactoryEnt.poolCount = some 2 ∧ (2 : Int) ≠ 1 := by
  constructor
  · decide
  · decide

/-- C6 (amended): replaying an identical PoolCreated for an address already
present as a Pool does not duplicate the entity — the store is keyed by the
pool address and the entity is overwritten in place — but it increments
`Factory.poolCount` a second time and re-zeroes the pool's aggregates by
overwriting the entity with the freshly zero-initialized pool. -/
theorem claim6_poolcreated_replay_amended (env : Env) (td : TxDetails)
    (e : PoolCreatedEv) (s : State) (pool : PoolEnt) (f : FactoryEnt)
    (t0 t1 : TokenEnt)
    (_hpool : s.pools e.pool = some pool)
    (hfac : s.factory = some f)
    (ht0 : s.tokens e.token0 = some t0)
    (ht1 : s.tokens e.token1 = some t1)
    (hne : e.pool ≠ excludedPoolAddress) :
    ∃ s2, handlePoolCreated env td e s = some s2 ∧
      s2.factory = some { f with poolCount := f.poolCount + 1 } ∧
      s2.pools e.pool = some (newPool td e) := by
  simp only [handlePoolCreated, hfac, ht0, ht1, if_neg hne]
  refine ⟨_, rfl, rfl, ?_⟩
  simp [State.setToken, State.setPool]

/-- C6 (witness): the amended statement at the concrete replay state. -/
theorem claim6_poolcreated_replay_amended_witness :
    fxStateReplay.pools fxPoolCreatedEv.pool = some (newPool fxTd fxPoolCreatedEv) ∧
    (∃ s2, handlePoolCreated fxEnv fxTd fxPoolCreatedEv fxStateReplay = some s2 ∧
      s2.factory = some { fxFactory1 with poolCount := fxFactory1.poolCount + 1 } ∧
      s2.pools fxPoolCreatedEv.pool = some (newPool fxTd fxPoolCreatedEv)) :=
  ⟨rfl, claim6_poolcreated_replay_amended fxEnv fxTd fxPoolCreatedEv fxStateReplay
    (newPool fxTd fxPoolCreatedEv) fxFactory1 (newToken 18) (newToken 18)
    rfl rfl rfl rfl (by decide)⟩

/-- C5: on a mint over an existing pool (with the singletons and tokens
resolvable, and distinct boundary tick ids), the pool's active liquidity
grows by the minted amount exactly when the pool's tick is non-null and
`tickLower ≤ currentTick < tickUpper`; in every case both boundary ticks —
taking the zero-initialized `createTick` entity as the baseline when a
boundary was absent — gain the amount on `liquidityGross`, the lower tick
gains it on `liquidityNet` and the upper tick loses it. -/
theorem claim5_mint_liquidity_and_ticks (env : Env) (td : TxDetails) (e : MintEv)
    (s : State) (pool : PoolEnt) (bundle : BundleEnt) (factory : FactoryEnt)
    (t0 t1 : TokenEnt)
    (hp : s.pools td.address = some pool)
    (hb : s.bundle = some bundle)
    (hf : s.factory = some factory)
    (ht0 : s.tokens pool.token0 = some t0)
    (ht1 : s.tokens pool.token1 = some t1)
    (hne : tickKey td.address e.tickLower ≠ tickKey td.address e.tickUpper) :
    ((handleMint env td e s).bind fun s2 =>
        (s2.pools td.address).map PoolEnt.liquidity) =
      some (match pool.tick with
            | some t =>
              if e.tickLower ≤ t ∧ t < e.tickUpper then pool.liquidity + e.amount
              else pool.liquidity
            | none => pool.liquidity) ∧
    ((handleMint env td e s).bind fun s2 =>
        (s2.ticks (tickKey td.address e.tickLower)).map TickEnt.liquidityGross) =
      some (((s.ticks (tickKey td.address e.tickLower)).getD
        (createTick e.tickLower)).liquidityGross + e.amount) ∧
    ((handleMint env td e s).bind fun s2 =>
        (s2.ticks (tickKey td.address e.tickLower)).map TickEnt.liquidityNet) =
      some (((s.ticks (tickKey td.address e.tickLower)).getD
        (createTick e.tickLower)).liquidityNet + e.amount) ∧
    ((handleMint env td e s).bind fun s2 =>
        (s2.ticks (tickKey td.address e.tickUpper)).map TickEnt.liquidityGross) =
      some (((s.ticks (tickKey td.address e.tickUpper)).getD
        (createTick e.tickUpper)).liquidityGross + e.amount) ∧
    ((handleMint env td e s).bind fun s2 =>
        (s2.ticks (tickKey td.address e.tickUpper)).map TickEnt.liquidityNet) =
      some (((s.ticks (tickKey td.address e.tickUpper)).getD
        (createTick e.tickUpper)).liquidityNet - e.amount) := by
  refine ⟨?_, ?_, ?_, ?_, ?_⟩
  · simp only [handleMint, hp, hb, hf, ht0, ht1, Option.bind, updateTickFeeVars,
      State.setTick, State.setPool, State.setToken]
    cases htick : pool.tick with
    | none => simp [htick]
    | some t =>
      by_cases hc : e.tickLower ≤ t ∧ t < e.tickUpper
      · simp [htick, hc]
      · simp [htick, hc]
  · simp [handleMint, hp, hb, hf, ht0, ht1, Option.bind, updateTickFeeVars,
      State.setTick, State.setPool, State.setToken, hne]
  · simp [handleMint, hp, hb, hf, ht0, ht1, Option.bind, updateTickFeeVars,
      State.setTick, State.setPool, State.setToken, hne]
  · simp [handleMint, hp, hb, hf, ht0, ht1, Option.bind, updateTickFeeVars,
      State.setTick, State.setPool, State.setToken, hne]
  · simp [handleMint, hp, hb, hf, ht0, ht1, Option.bind, updateTickFeeVars,
      State.setTick, State.setPool, State.setToken, hne]

/-- C5 (witness): a mint of amount 7 over [−100, 100] on a pool whose current
tick is 50 raises the pool liquidity by 7 and installs both boundary ticks
with `liquidityGross = 7`, `liquidityNet = ±7`. -/
theorem claim5_mint_liquidity_and_ticks_witness :
    fxStateMint.pools fxTd.address = some fxPool ∧
    tickKey fxTd.address fxMintEv.tickLower ≠ tickKey fxTd.address fxMintEv.tickUpper ∧
    (((handleMint fxEnv fxTd fxMintEv fxStateMint).bind fun s2 =>
        (s2.pools fxTd.address).map PoolEnt.liquidity) =
      some (match fxPool.tick with
            | some t =>
              if fxMintEv.tickLower ≤ t ∧ t < fxMintEv.tickUpper then
                fxPool.liquidity + fxMintEv.amount
              else fxPool.liquidity
            | none => fxPool.liquidity) ∧
    ((handleMint fxEnv fxTd fxMintEv fxStateMint).bind fun s2 =>
        (s2.ticks (tickKey fxTd.address fxMintEv.tickLower)).map TickEnt.liquidityGross) =
      some (((fxStateMint.ticks (tickKey fxTd.address fxMintEv.tickLower)).getD
        (createTick fxMintEv.tickLower)).liquidityGross + fxMintEv.amount) ∧
    ((handleMint fxEnv fxTd fxMintEv fxStateMint).bind fun s2 =>
        (s2.ticks (tickKey fxTd.address fxMintEv.tickLower)).map TickEnt.liquidityNet) =
      some (((fxStateMint.ticks (tickKey fxTd.address fxMintEv.tickLower)).getD
        (createTick fxMintEv.tickLower)).liquidityNet + fxMintEv.amount) ∧
    ((handleMint fxEnv fxTd fxMintEv fxStateMint).bind fun s2 =>
        (s2.ticks (tickKey fxTd.address fxMintEv.tickUpper)).map TickEnt.liquidityGross) =
      some (((fxStateMint.ticks (tickKey fxTd.address fxMintEv.tickUpper)).getD
        (createTick fxMintEv.tickUpper)).liquidityGross + fxMintEv.amount) ∧
    ((handleMint fxEnv fxTd fxMintEv fxStateMint).bind fun s2 =>
        (s2.ticks (tickKey fxTd.address fxMintEv.tickUpper)).map TickEnt.liquidityNet) =
      some (((fxStateMint.ticks (tickKey fxTd.address fxMintEv.tickUpper)).getD
        (createTick fxMintEv.tickUpper)).liquidityNet - fxMintEv.amount)) :=
  ⟨rfl, by decide,
    claim5_mint_liquidity_and_ticks fxEnv fxTd fxMintEv fxStateMint fxPool
      { ethPriceUSD := 2000 } newFactory (newToken 18) (newToken 18)
      rfl rfl rfl rfl rfl (by decide)⟩

end UniswapSg
